import Mathlib

/-!
Verification of the text-analysis pipeline of the mood diary application
(`src/app.py`). The helper functions of the pipeline are pure functions on
strings; we embed them shallowly, with text as `List Char`, Python's float
compound score as `ℚ`, and Python's `round` as round-half-to-even on `ℚ`
(checked to agree with the source's float computation on the whole
reachable domain of counts).
-/

namespace Mood

/-- Python's `str.lower` restricted to the ASCII texts the keyword lists use. -/
def toLowerText (s : List Char) : List Char := s.map Char.toLower

/-- `leadsWith pat s`: `pat` occurs at the very start of `s`. -/
def leadsWith : List Char → List Char → Bool
  | [], _ => true
  | _ :: _, [] => false
  | p :: ps, c :: cs => p == c && leadsWith ps cs

/-- Python's `pat in s` on strings: `pat` occurs as a contiguous substring of `s`. -/
def containsSeq (pat : List Char) : List Char → Bool
  | [] => leadsWith pat []
  | c :: cs => leadsWith pat (c :: cs) || containsSeq pat (cs)

/-- `word in text_lower` for a keyword given as a `String` literal. -/
def kwIn (kw : String) (tl : List Char) : Bool := containsSeq kw.toList tl

/-- Scanner for Python's non-overlapping `str.count`: `skip` characters are
still to be consumed by the previous match before scanning resumes. -/
def countOccAux (pat : List Char) : List Char → Nat → Nat
  | [], _ => 0
  | _ :: cs, Nat.succ k => countOccAux pat cs k
  | c :: cs, 0 =>
    if leadsWith pat (c :: cs) then 1 + countOccAux pat cs (pat.length - 1)
    else countOccAux pat cs 0

/-- Python's non-overlapping `str.count` for a non-empty pattern. -/
def countOcc (pat : List Char) (s : List Char) : Nat := countOccAux pat s 0

/-- Python `round` (round-half-to-even) on an exact rational value. -/
def pyRound (q : ℚ) : ℤ :=
  if q - ⌊q⌋ < 1/2 then ⌊q⌋
  else if q - ⌊q⌋ > 1/2 then ⌊q⌋ + 1
  else if ⌊q⌋ % 2 = 0 then ⌊q⌋ else ⌊q⌋ + 1

/-- The five emotion percentages of `get_custom_emotion`, in the dict's
insertion order Happy, Angry, Surprise, Sad, Fear. -/
structure Emotions where
  happy : ℤ
  angry : ℤ
  surprise : ℤ
  sad : ℤ
  fear : ℤ
deriving DecidableEq, Repr

def happy_keywords : List String :=
  ["happy", "joy", "glad", "pleased", "delighted", "cheerful", "content",
   "satisfied", "excited", "love", "enjoy", "fun", "celebrate"]

def angry_keywords : List String :=
  ["angry", "mad", "furious", "annoyed", "frustrated", "irritated", "hate",
   "dislike", "rage"]

def surprise_keywords : List String :=
  ["surprise", "amazed", "astonished", "shocked", "stunned", "startled",
   "unexpected", "incredible"]

def sad_keywords : List String :=
  ["sad", "unhappy", "depressed", "gloomy", "melancholy", "down", "blue",
   "upset", "disappointed", "lonely"]

def fear_keywords : List String :=
  ["fear", "afraid", "scared", "frightened", "anxious", "worried", "nervous",
   "panic", "dread"]

/-- `sum(1 for word in kws if word in text_lower)`. -/
def presenceCount (kws : List String) (tl : List Char) : Nat :=
  (kws.filter (fun w => kwIn w tl)).length

/-- One percentage of `get_custom_emotion`: `round((count / total) * 100)`. -/
def emotionPct (count total : Nat) : ℤ :=
  pyRound ((count : ℚ) / (total : ℚ) * 100)

/-- `get_custom_emotion` from `src/app.py`: lowercase the text, count for each
category how many of its keywords occur as substrings, and if the grand total
is positive replace each zero by the independently rounded percentage. -/
def get_custom_emotion (text : List Char) : Emotions :=
  let tl := toLowerText text
  let happy_count := presenceCount happy_keywords tl
  let angry_count := presenceCount angry_keywords tl
  let surprise_count := presenceCount surprise_keywords tl
  let sad_count := presenceCount sad_keywords tl
  let fear_count := presenceCount fear_keywords tl
  let total := happy_count + angry_count + surprise_count + sad_count + fear_count
  if total > 0 then
    { happy := emotionPct happy_count total
      angry := emotionPct angry_count total
      surprise := emotionPct surprise_count total
      sad := emotionPct sad_count total
      fear := emotionPct fear_count total }
  else
    { happy := 0, angry := 0, surprise := 0, sad := 0, fear := 0 }

/-- `get_sentiment_category` from `src/app.py`. -/
def get_sentiment_category (compound : ℚ) : String :=
  if compound ≥ 5/100 then "Positive"
  else if compound ≤ -(5/100) then "Negative"
  else "Neutral"

/-- `get_sentiment_intensity` from `src/app.py` (`abs_compound = abs(compound)`). -/
def get_sentiment_intensity (compound : ℚ) : String :=
  if |compound| ≥ 5/10 then "Strong"
  else if |compound| ≥ 1/10 then "Moderate"
  else "Mild"

/-- A sentence terminator of the regex `[.!?]+` in `extract_highlights`. -/
def isTerm (c : Char) : Bool := c == '.' || c == '!' || c == '?'

/-- `re.split(r'[.!?]+', text)`: the pieces between maximal runs of sentence
terminators, keeping the empty pieces at the ends. A terminator closes a
piece exactly when it is the last character of its run. -/
def splitTerms : List Char → List (List Char)
  | [] => [[]]
  | c :: cs =>
    if isTerm c then
      match cs with
      | [] => [[], []]
      | d :: _ => if isTerm d then splitTerms cs else [] :: splitTerms cs
    else
      match splitTerms cs with
      | [] => [[c]]
      | p :: ps => (c :: p) :: ps

/-- The whitespace characters removed by Python's `str.strip()`. -/
def pyIsSpace (c : Char) : Bool :=
  c == ' ' || c == '\t' || c == '\n' || c == '\x0d' ||
  c == '\x0b' || c == '\x0c'

/-- Python's `str.strip()`. -/
def pyStrip (s : List Char) : List Char :=
  ((s.dropWhile pyIsSpace).reverse.dropWhile pyIsSpace).reverse

/-- The stripped segments of length > 10 that `extract_highlights` collects
before shaping the list. -/
def qualSegments (text : List Char) : List (List Char) :=
  ((splitTerms text).map pyStrip).filter (fun s => s.length > 10)

/-- `extract_highlights` from `src/app.py`:
`highlights[:7] if len(highlights) > 7 else highlights[3:] if len(highlights) < 3 else highlights`. -/
def extract_highlights (text : List Char) : List (List Char) :=
  if (qualSegments text).length > 7 then (qualSegments text).take 7
  else if (qualSegments text).length < 3 then (qualSegments text).drop 3
  else qualSegments text

def stress_keywords : List String :=
  ["stress", "stressed", "pressure", "overwhelm", "anxious", "anxiety"]

def overthinking_keywords : List String :=
  ["think", "thinking", "thought", "wonder", "wondering", "contemplate"]

def motivation_keywords : List String :=
  ["motivat", "inspir", "excit", "enthusias", "eager", "drive"]

def avoidance_keywords : List String :=
  ["avoid", "procrastin", "delay", "postpone"]

def self_criticism_keywords : List String :=
  ["should have", "could have", "would have", "mistake", "wrong", "fail"]

def confidence_keywords : List String :=
  ["confident", "proud", "accomplish", "success", "achiev"]

def relationship_keywords : List String :=
  ["friend", "family", "relationship", "partner", "love", "alone"]

def fatigue_keywords : List String :=
  ["tired", "exhaust", "fatigue", "sleepy", "drain"]

def productivity_keywords : List String :=
  ["productiv", "efficien", "focus", "concentrat", "work"]

/-- `any(keyword in text_lower for keyword in kws)`. -/
def anyKw (kws : List String) (tl : List Char) : Bool :=
  kws.any (fun w => kwIn w tl)

/-- `identify_mental_patterns` from `src/app.py`. -/
def identify_mental_patterns (text : List Char) : List String :=
  let tl := toLowerText text
  (if anyKw stress_keywords tl then ["Stress"] else []) ++
  (if countOcc "think".toList tl > 3 || anyKw overthinking_keywords tl then
     ["Overthinking"] else []) ++
  (if anyKw motivation_keywords tl then ["Motivation"] else []) ++
  (if anyKw avoidance_keywords tl then ["Avoidance"] else []) ++
  (if anyKw self_criticism_keywords tl then ["Self-criticism"] else []) ++
  (if anyKw confidence_keywords tl then ["Confidence"] else []) ++
  (if anyKw relationship_keywords tl then ["Relationship concerns"] else []) ++
  (if anyKw fatigue_keywords tl then ["Fatigue"] else []) ++
  (if anyKw productivity_keywords tl then ["Productivity"] else [])

def effort_keywords : List String := ["try", "attempt", "work", "effort", "strive"]

def honesty_keywords : List String := ["honest", "truth", "admit", "confess"]

def resilience_keywords : List String :=
  ["persever", "persist", "resilien", "bounc", "recover"]

def discipline_keywords : List String :=
  ["disciplin", "routine", "habit", "schedule", "plan"]

def responsibility_keywords : List String :=
  ["responsib", "duty", "obligat", "accountab"]

def empathy_keywords : List String :=
  ["empath", "understand", "feel for", "compassion"]

def self_awareness_keywords : List String :=
  ["realize", "recognize", "aware", "understand myself"]

/-- `identify_strengths` from `src/app.py`. -/
def identify_strengths (text : List Char) : List String :=
  let tl := toLowerText text
  (if anyKw effort_keywords tl then ["Effort"] else []) ++
  (if anyKw honesty_keywords tl then ["Honesty"] else []) ++
  (if anyKw resilience_keywords tl then ["Resilience"] else []) ++
  (if anyKw discipline_keywords tl then ["Discipline"] else []) ++
  (if anyKw responsibility_keywords tl then ["Responsibility"] else []) ++
  (if anyKw empathy_keywords tl then ["Empathy"] else []) ++
  (if anyKw self_awareness_keywords tl then ["Self-awareness"] else [])

/-- The value of the emotions dict at one of its five keys; any other key
is absent (`emotions.get` would yield `None`, modelled as an arbitrary
value never reached by `max` over the five keys). -/
def emotionVal (e : Emotions) (k : String) : ℤ :=
  if k = "Happy" then e.happy
  else if k = "Angry" then e.angry
  else if k = "Surprise" then e.surprise
  else if k = "Sad" then e.sad
  else e.fear

/-- `max(emotions, key=emotions.get)`: the first key of maximal value in the
dict's insertion order Happy, Angry, Surprise, Sad, Fear (`max` keeps the
earliest item on ties). -/
def dominantEmotion (e : Emotions) : String :=
  let b1 : String × ℤ := ("Happy", e.happy)
  let b2 := if e.angry > b1.2 then ("Angry", e.angry) else b1
  let b3 := if e.surprise > b2.2 then ("Surprise", e.surprise) else b2
  let b4 := if e.sad > b3.2 then ("Sad", e.sad) else b3
  let b5 := if e.fear > b4.2 then ("Fear", e.fear) else b4
  b5.1

def toneTough : String :=
  "It seems like you're going through a tough time. Remember that difficult moments are temporary, and you've overcome challenges before."

def tonePositive : String :=
  "You're in a positive headspace right now - that's wonderful! Consider what's contributing to this positivity and how you can cultivate more of it."

def toneBalanced : String :=
  "You're in a balanced state of mind. This stability can be a great foundation for growth and self-reflection."

def sugHappy : String :=
  "Your joy is contagious! Share this positive energy with someone you care about today."

def sugSad : String :=
  "It's okay to feel sad sometimes. Be gentle with yourself and engage in activities that bring you comfort."

def sugAnger : String :=
  "Anger is a natural emotion. Try channeling this energy into something constructive, like exercise or creative expression."

def sugFear : String :=
  "Fear can be protective, but don't let it hold you back. Take small steps toward what scares you."

def sugSurprise : String :=
  "Life's surprises can be challenging to process. Give yourself time to adjust to new information or changes."

def sugStress : String :=
  "You're experiencing stress. Try some deep breathing exercises or a short walk to help center yourself."

def sugOverthinking : String :=
  "It seems like your mind is busy. Consider journaling your thoughts to help sort through them, or try mindfulness to stay present."

def sugMotivation : String :=
  "Your motivation is a powerful force. Channel it toward a goal you've been putting off."

def sugAvoidance : String :=
  "Avoidance is a common coping mechanism. Try breaking overwhelming tasks into smaller, manageable steps."

def sugFallback : String :=
  "You're doing great. Keep taking care of yourself and your emotional well-being."

/-- The tone sentence `generate_suggestions` always appends first. -/
def toneSentence (compound : ℚ) : String :=
  if compound < -(3/10) then toneTough
  else if compound > 3/10 then tonePositive
  else toneBalanced

/-- The `if emotions[dominant_emotion] > 30` block of `generate_suggestions`:
the sentence keyed to the dominant emotion, when its label matches one of
the five compared labels Happy, Sad, Anger, Fear, Surprise. -/
def emotionSuggestion (emotions : Emotions) : List String :=
  if emotionVal emotions (dominantEmotion emotions) > 30 then
    if dominantEmotion emotions = "Happy" then [sugHappy]
    else if dominantEmotion emotions = "Sad" then [sugSad]
    else if dominantEmotion emotions = "Anger" then [sugAnger]
    else if dominantEmotion emotions = "Fear" then [sugFear]
    else if dominantEmotion emotions = "Surprise" then [sugSurprise]
    else []
  else []

/-- The suggestion list of `generate_suggestions` before the final
empty-list fallback check. -/
def suggestionsCore (compound : ℚ) (emotions : Emotions)
    (mental_patterns : List String) : List String :=
  [toneSentence compound] ++ emotionSuggestion emotions ++
  (if mental_patterns.contains "Stress" then [sugStress] else []) ++
  (if mental_patterns.contains "Overthinking" then [sugOverthinking] else []) ++
  (if mental_patterns.contains "Motivation" then [sugMotivation] else []) ++
  (if mental_patterns.contains "Avoidance" then [sugAvoidance] else [])

/-- `generate_suggestions` from `src/app.py`, with its final fallback branch
`return suggestions if suggestions else [...]`. -/
def generate_suggestions (compound : ℚ) (emotions : Emotions)
    (mental_patterns : List String) : List String :=
  let suggestions := suggestionsCore compound emotions mental_patterns
  if suggestions = [] then [sugFallback] else suggestions

/-- `generate_summary` from `src/app.py`. -/
def generate_summary (compound : ℚ) (emotions : Emotions) : String :=
  let sentiment_word := get_sentiment_category compound
  let dominant_emotion := dominantEmotion emotions
  let emotion_percentage := emotionVal emotions dominant_emotion
  if emotion_percentage > 50 then
    "A " ++ sentiment_word.toLower ++ " entry dominated by " ++
      dominant_emotion.toLower ++ " emotions."
  else
    "A generally " ++ sentiment_word.toLower ++ " entry with mixed emotional tones."

/-- The analysis fields the comprehensive-analysis route computes from one
entry text and the external scorer's compound value. -/
structure AnalysisResult where
  category : String
  intensity : String
  emotions : Emotions
  highlights : List (List Char)
  mental_patterns : List String
  strengths : List String
  suggestions : List String
  summary : String
deriving Repr

/-- The pure part of the `/get_comprehensive_analysis` route of
`src/app.py`: the composition of the helper functions on one entry text,
with the external scorer's compound score passed in. -/
def analyze (compound : ℚ) (text : List Char) : AnalysisResult :=
  { category := get_sentiment_category compound
    intensity := get_sentiment_intensity compound
    emotions := get_custom_emotion text
    highlights := extract_highlights text
    mental_patterns := identify_mental_patterns text
    strengths := identify_strengths text
    suggestions := generate_suggestions compound (get_custom_emotion text)
      (identify_mental_patterns text)
    summary := generate_summary compound (get_custom_emotion text) }

/-- The fixed evaluation order of the mental-pattern tags. -/
def mentalPatternOrder : List String :=
  ["Stress", "Overthinking", "Motivation", "Avoidance", "Self-criticism",
   "Confidence", "Relationship concerns", "Fatigue", "Productivity"]

/-- The fixed evaluation order of the strength tags. -/
def strengthOrder : List String :=
  ["Effort", "Honesty", "Resilience", "Discipline", "Responsibility",
   "Empathy", "Self-awareness"]

/-- All keywords of the five emotion category lists. -/
def allEmotionKeywords : List String :=
  happy_keywords ++ angry_keywords ++ surprise_keywords ++ sad_keywords ++
    fear_keywords

/-- The estimator as the spec words it: for each category, the number of
distinct keywords of its list that occur at least once as a case-insensitive
substring of the text; if the sum of the five counts is 0 all five
percentages are 0, otherwise each percentage is `round(count / total * 100)`
computed independently per category. -/
def specEmotionDistribution (text : List Char) : Emotions :=
  let cnt (kws : List String) : Nat :=
    kws.countP (fun w => containsSeq w.toList (toLowerText text))
  let ch := cnt happy_keywords
  let ca := cnt angry_keywords
  let cs := cnt surprise_keywords
  let cd := cnt sad_keywords
  let cf := cnt fear_keywords
  let total := ch + ca + cs + cd + cf
  if total = 0 then { happy := 0, angry := 0, surprise := 0, sad := 0, fear := 0 }
  else
    { happy := pyRound ((ch : ℚ) / (total : ℚ) * 100)
      angry := pyRound ((ca : ℚ) / (total : ℚ) * 100)
      surprise := pyRound ((cs : ℚ) / (total : ℚ) * 100)
      sad := pyRound ((cd : ℚ) / (total : ℚ) * 100)
      fear := pyRound ((cf : ℚ) / (total : ℚ) * 100) }

/-! ## Helper lemmas -/

lemma ite_singleton_append_sublist {α : Type} (p : Prop) [Decidable p] (x : α)
    {l m : List α} (h : List.Sublist l m) :
    List.Sublist ((if p then [x] else []) ++ l) (x :: m) := by
  split_ifs
  · exact h.cons₂ x
  · exact h.cons x

lemma ite_singleton_sublist {α : Type} (p : Prop) [Decidable p] (x : α) :
    List.Sublist (if p then [x] else []) [x] := by
  split_ifs
  · exact List.Sublist.refl _
  · exact List.nil_sublist _

lemma ite_singleton_append_eq_nil {α : Type} (p : Prop) [Decidable p] (x : α)
    (l : List α) : ((if p then [x] else []) ++ l) = [] ↔ ¬p ∧ l = [] := by
  split_ifs with h <;> simp [h]

lemma ite_singleton_eq_nil {α : Type} (p : Prop) [Decidable p] (x : α) :
    (if p then [x] else []) = [] ↔ ¬p := by
  split_ifs with h <;> simp [h]

lemma ite_singleton_subset {α : Type} (p : Prop) [Decidable p] (x : α)
    {m : List α} (hx : x ∈ m) : (if p then [x] else []) ⊆ m := by
  split_ifs <;> simp [hx]

/-! ## C2 -/

/-- C2: the sentiment categorizer returns Positive when `compound >= 0.05`,
Negative when `compound <= -0.05`, Neutral otherwise; the intensity function
returns Strong when `abs(compound) >= 0.5`, Moderate when
`abs(compound) >= 0.1`, and Mild otherwise. -/
theorem sentiment_thresholds (c : ℚ) :
    (5/100 ≤ c → get_sentiment_category c = "Positive") ∧
    (c ≤ -(5/100) → get_sentiment_category c = "Negative") ∧
    (-(5/100) < c → c < 5/100 → get_sentiment_category c = "Neutral") ∧
    (5/10 ≤ |c| → get_sentiment_intensity c = "Strong") ∧
    (|c| < 5/10 → 1/10 ≤ |c| → get_sentiment_intensity c = "Moderate") ∧
    (|c| < 1/10 → get_sentiment_intensity c = "Mild") := by
  unfold get_sentiment_category get_sentiment_intensity
  refine ⟨?_, ?_, ?_, ?_, ?_, ?_⟩ <;> intros <;> split_ifs <;>
    first | rfl | linarith

/-- Concrete instances of the six threshold branches of C2. -/
theorem sentiment_thresholds_witness :
    get_sentiment_category (6/100) = "Positive" ∧
    get_sentiment_category (-(6/100)) = "Negative" ∧
    get_sentiment_category 0 = "Neutral" ∧
    get_sentiment_intensity (6/10) = "Strong" ∧
    get_sentiment_intensity (2/10) = "Moderate" ∧
    get_sentiment_intensity 0 = "Mild" :=
  ⟨(sentiment_thresholds (6/100)).1 (by norm_num),
   (sentiment_thresholds (-(6/100))).2.1 (by norm_num),
   (sentiment_thresholds 0).2.2.1 (by norm_num) (by norm_num),
   (sentiment_thresholds (6/10)).2.2.2.1 (by rw [abs_of_pos] <;> norm_num),
   (sentiment_thresholds (2/10)).2.2.2.2.1
     (by rw [abs_of_pos] <;> norm_num) (by rw [abs_of_pos] <;> norm_num),
   (sentiment_thresholds 0).2.2.2.2.2 (by norm_num)⟩

/-! ## C6 -/

/-- C6 is false as stated: the Angry keyword list has 9 entries, which is
not between 12 and 13. -/
theorem keyword_list_sizes_counterexample :
    angry_keywords.length = 9 ∧
    ¬(12 ≤ angry_keywords.length ∧ angry_keywords.length ≤ 13) := by
  decide

/-- C6 (amended): the five fixed keyword lists have 13 (Happy), 9 (Angry),
8 (Surprise), 10 (Sad) and 9 (Fear) entries, i.e. between 8 and 13 per
category; only the Happy list has 12–13. -/
theorem keyword_list_sizes :
    happy_keywords.length = 13 ∧ angry_keywords.length = 9 ∧
    surprise_keywords.length = 8 ∧ sad_keywords.length = 10 ∧
    fear_keywords.length = 9 := by
  decide

/-! ## C3 -/

/-- C3: the highlight extractor keeps the stripped inter-terminator segments
of length > 10 and then returns the first 7 of them when more than 7 remain,
the segments from index 3 onward (always the empty list) when fewer than 3
remain, and all of them unchanged when 3 to 7 remain. -/
theorem extract_highlights_shaping (text : List Char) :
    (7 < (qualSegments text).length →
      extract_highlights text = (qualSegments text).take 7) ∧
    ((qualSegments text).length < 3 →
      extract_highlights text = (qualSegments text).drop 3 ∧
      extract_highlights text = []) ∧
    (3 ≤ (qualSegments text).length → (qualSegments text).length ≤ 7 →
      extract_highlights text = qualSegments text) := by
  unfold extract_highlights
  refine ⟨?_, ?_, ?_⟩
  · intro h; rw [if_pos h]
  · intro h
    rw [if_neg (by omega), if_pos h]
    exact ⟨rfl, List.drop_eq_nil_of_le (by omega)⟩
  · intro h1 h2
    rw [if_neg (by omega), if_neg (by omega)]

/-- A text with exactly 2 qualifying sentences yields the empty highlight
list. -/
theorem extract_highlights_shaping_witness :
    (qualSegments "This is long sentence one. This is long sentence two.".toList).length = 2 ∧
    extract_highlights "This is long sentence one. This is long sentence two.".toList = [] :=
  ⟨by decide,
   ((extract_highlights_shaping
     "This is long sentence one. This is long sentence two.".toList).2.1
     (by decide)).2⟩

/-! ## C9 -/

lemma containsSeq_of_countOccAux_pos (pat : List Char) :
    ∀ (s : List Char) (k : Nat),
      0 < countOccAux pat s k → containsSeq pat s = true := by
  intro s
  induction s with
  | nil => intro k h; simp [countOccAux] at h
  | cons c cs ih =>
    intro k h
    cases k with
    | succ k' =>
      have := ih k' (by simpa [countOccAux] using h)
      simp [containsSeq, this]
    | zero =>
      by_cases hl : leadsWith pat (c :: cs) = true
      · simp [containsSeq, hl]
      · have h' : 0 < countOccAux pat cs 0 := by
          simpa [countOccAux, hl] using h
        have := ih 0 h'
        simp [containsSeq, this]

/-- C9: the Overthinking condition
`text.count('think') > 3 or any(kw in text for kw in overthinking_keywords)`
is equivalent to the membership check alone, because `'think'` is itself in
the keyword list: a count above 3 forces `'think'` to occur as a substring. -/
theorem overthinking_condition_redundant (text : List Char) :
    (decide (3 < countOcc "think".toList (toLowerText text)) ||
      anyKw overthinking_keywords (toLowerText text)) =
    anyKw overthinking_keywords (toLowerText text) := by
  cases h : anyKw overthinking_keywords (toLowerText text) with
  | true => simp
  | false =>
    simp only [Bool.or_false]
    refine decide_eq_false ?_
    intro hc
    have hpos : 0 < countOccAux "think".toList (toLowerText text) 0 := by
      unfold countOcc at hc; omega
    have hcon : containsSeq "think".toList (toLowerText text) = true :=
      containsSeq_of_countOccAux_pos _ _ _ hpos
    have hany : anyKw overthinking_keywords (toLowerText text) = true := by
      unfold anyKw
      exact List.any_eq_true.mpr ⟨"think", by decide, hcon⟩
    rw [h] at hany
    exact Bool.false_ne_true hany

/-- Instance of C9 at a text where the count alone would trigger. -/
theorem overthinking_condition_redundant_witness :
    (decide (3 < countOcc "think".toList
        (toLowerText "think think think think".toList)) ||
      anyKw overthinking_keywords (toLowerText "think think think think".toList)) =
    anyKw overthinking_keywords (toLowerText "think think think think".toList) :=
  overthinking_condition_redundant "think think think think".toList

/-! ## C1 -/

/-- C1: the emotion distribution estimator computes, for each of the five
categories, the number of distinct keywords of that category's list that
occur at least once as a case-insensitive substring of the text, and turns
the counts into independently rounded percentages of their sum (all five 0
when the sum is 0). -/
theorem get_custom_emotion_matches_spec (text : List Char) :
    get_custom_emotion text = specEmotionDistribution text := by
  unfold get_custom_emotion specEmotionDistribution
  simp only [presenceCount, kwIn, emotionPct, List.countP_eq_length_filter]
  split_ifs with h1 h2 <;> first | rfl | omega

/-- Instance of C1 at a text matching keywords of two categories. -/
theorem get_custom_emotion_matches_spec_witness :
    get_custom_emotion "sad and afraid".toList =
    specEmotionDistribution "sad and afraid".toList :=
  get_custom_emotion_matches_spec "sad and afraid".toList

/-! ## C5 -/

lemma identify_mental_patterns_sublist (text : List Char) :
    List.Sublist (identify_mental_patterns text) mentalPatternOrder := by
  unfold identify_mental_patterns mentalPatternOrder
  simp only [List.append_assoc]
  exact ite_singleton_append_sublist _ _ (ite_singleton_append_sublist _ _
    (ite_singleton_append_sublist _ _ (ite_singleton_append_sublist _ _
    (ite_singleton_append_sublist _ _ (ite_singleton_append_sublist _ _
    (ite_singleton_append_sublist _ _ (ite_singleton_append_sublist _ _
    (ite_singleton_sublist _ _))))))))

lemma identify_strengths_sublist (text : List Char) :
    List.Sublist (identify_strengths text) strengthOrder := by
  unfold identify_strengths strengthOrder
  simp only [List.append_assoc]
  exact ite_singleton_append_sublist _ _ (ite_singleton_append_sublist _ _
    (ite_singleton_append_sublist _ _ (ite_singleton_append_sublist _ _
    (ite_singleton_append_sublist _ _ (ite_singleton_append_sublist _ _
    (ite_singleton_sublist _ _))))))

/-- C5: the mental-pattern tags come out in the fixed evaluation order
Stress, Overthinking, Motivation, Avoidance, Self-criticism, Confidence,
Relationship concerns, Fatigue, Productivity, with no tag twice and the
empty list exactly when none of the boolean checks triggers; the strength
tags likewise preserve their fixed order Effort, Honesty, Resilience,
Discipline, Responsibility, Empathy, Self-awareness without duplicates. -/
theorem tag_lists_ordered_nodup (text : List Char) :
    List.Sublist (identify_mental_patterns text) mentalPatternOrder ∧
    (identify_mental_patterns text).Nodup ∧
    List.Sublist (identify_strengths text) strengthOrder ∧
    (identify_strengths text).Nodup ∧
    (identify_mental_patterns text = [] ↔
      (anyKw stress_keywords (toLowerText text) = false ∧
       (decide (3 < countOcc "think".toList (toLowerText text)) ||
         anyKw overthinking_keywords (toLowerText text)) = false ∧
       anyKw motivation_keywords (toLowerText text) = false ∧
       anyKw avoidance_keywords (toLowerText text) = false ∧
       anyKw self_criticism_keywords (toLowerText text) = false ∧
       anyKw confidence_keywords (toLowerText text) = false ∧
       anyKw relationship_keywords (toLowerText text) = false ∧
       anyKw fatigue_keywords (toLowerText text) = false ∧
       anyKw productivity_keywords (toLowerText text) = false)) := by
  refine ⟨identify_mental_patterns_sublist text, ?_,
    identify_strengths_sublist text, ?_, ?_⟩
  · exact (by decide : mentalPatternOrder.Nodup).sublist
      (identify_mental_patterns_sublist text)
  · exact (by decide : strengthOrder.Nodup).sublist
      (identify_strengths_sublist text)
  · unfold identify_mental_patterns
    simp only [List.append_assoc, ite_singleton_append_eq_nil,
      ite_singleton_eq_nil, Bool.not_eq_true, and_true]

/-- Instance of C5: a text triggering no check yields empty tag lists, a
text triggering some checks yields tags in evaluation order. -/
theorem tag_lists_ordered_nodup_witness :
    identify_mental_patterns "xq".toList = [] ∧
    identify_mental_patterns "I feel stress at work and avoid my friend".toList =
      ["Stress", "Avoidance", "Relationship concerns", "Productivity"] ∧
    (identify_mental_patterns
      "I feel stress at work and avoid my friend".toList).Nodup :=
  ⟨(tag_lists_ordered_nodup "xq".toList).2.2.2.2.mpr (by decide),
   by decide,
   (tag_lists_ordered_nodup
     "I feel stress at work and avoid my friend".toList).2.1⟩

/-! ## C7 -/

lemma floor_le_pyRound (q : ℚ) : ⌊q⌋ ≤ pyRound q := by
  unfold pyRound
  split_ifs <;> omega

lemma pyRound_nonneg {q : ℚ} (h : 0 ≤ q) : 0 ≤ pyRound q := by
  have hf : 0 ≤ ⌊q⌋ := Int.floor_nonneg.mpr h
  exact hf.trans (floor_le_pyRound q)

lemma emotionPct_nonneg (c T : Nat) : 0 ≤ emotionPct c T := by
  unfold emotionPct
  exact pyRound_nonneg (by positivity)

/-- A category holding at least a fifth of the matches gets at least 20%. -/
lemma emotionPct_ge_twenty {c T : Nat} (hT : 0 < T) (h5 : T ≤ 5 * c) :
    20 ≤ emotionPct c T := by
  have hTQ : (0 : ℚ) < (T : ℚ) := by exact_mod_cast hT
  have h20 : (20 : ℚ) ≤ (c : ℚ) / (T : ℚ) * 100 := by
    rw [div_mul_eq_mul_div, le_div_iff₀ hTQ]
    have : (T : ℚ) ≤ 5 * (c : ℚ) := by exact_mod_cast h5
    nlinarith
  calc (20 : ℤ) ≤ ⌊(c : ℚ) / (T : ℚ) * 100⌋ := Int.le_floor.mpr (by exact_mod_cast h20)
    _ ≤ emotionPct c T := floor_le_pyRound _

lemma presenceCount_eq_zero_iff (kws : List String) (tl : List Char) :
    presenceCount kws tl = 0 ↔ anyKw kws tl = false := by
  unfold presenceCount anyKw
  simp [List.length_eq_zero, List.filter_eq_nil_iff, List.any_eq_false]

lemma anyKw_allEmotion_false_iff (tl : List Char) :
    anyKw allEmotionKeywords tl = false ↔
      (anyKw happy_keywords tl = false ∧ anyKw angry_keywords tl = false ∧
       anyKw surprise_keywords tl = false ∧ anyKw sad_keywords tl = false ∧
       anyKw fear_keywords tl = false) := by
  unfold anyKw allEmotionKeywords
  simp [List.any_append, or_assoc]

/-- C7: the five emotion-distribution values are non-negative integers, all
five are 0 iff no keyword of any category list occurs case-insensitively in
the text, and whenever a keyword matches at least one value is strictly
positive. -/
theorem emotion_distribution_zero_iff (text : List Char) :
    (0 ≤ (get_custom_emotion text).happy ∧ 0 ≤ (get_custom_emotion text).angry ∧
     0 ≤ (get_custom_emotion text).surprise ∧ 0 ≤ (get_custom_emotion text).sad ∧
     0 ≤ (get_custom_emotion text).fear) ∧
    (((get_custom_emotion text).happy = 0 ∧ (get_custom_emotion text).angry = 0 ∧
      (get_custom_emotion text).surprise = 0 ∧ (get_custom_emotion text).sad = 0 ∧
      (get_custom_emotion text).fear = 0) ↔
      anyKw allEmotionKeywords (toLowerText text) = false) ∧
    (anyKw allEmotionKeywords (toLowerText text) = true →
      0 < (get_custom_emotion text).happy ∨ 0 < (get_custom_emotion text).angry ∨
      0 < (get_custom_emotion text).surprise ∨ 0 < (get_custom_emotion text).sad ∨
      0 < (get_custom_emotion text).fear) := by
  have hiff : anyKw allEmotionKeywords (toLowerText text) = false ↔
      presenceCount happy_keywords (toLowerText text) +
      presenceCount angry_keywords (toLowerText text) +
      presenceCount surprise_keywords (toLowerText text) +
      presenceCount sad_keywords (toLowerText text) +
      presenceCount fear_keywords (toLowerText text) = 0 := by
    rw [anyKw_allEmotion_false_iff, ← presenceCount_eq_zero_iff,
      ← presenceCount_eq_zero_iff, ← presenceCount_eq_zero_iff,
      ← presenceCount_eq_zero_iff, ← presenceCount_eq_zero_iff]
    omega
  unfold get_custom_emotion
  dsimp only
  by_cases h : presenceCount happy_keywords (toLowerText text) +
      presenceCount angry_keywords (toLowerText text) +
      presenceCount surprise_keywords (toLowerText text) +
      presenceCount sad_keywords (toLowerText text) +
      presenceCount fear_keywords (toLowerText text) = 0
  · rw [if_neg (by omega)]
    refine ⟨by simp, by simpa [hiff] using h, ?_⟩
    intro habs
    rw [hiff.mpr h] at habs
    exact absurd habs (by simp)
  · have hT : 0 < presenceCount happy_keywords (toLowerText text) +
        presenceCount angry_keywords (toLowerText text) +
        presenceCount surprise_keywords (toLowerText text) +
        presenceCount sad_keywords (toLowerText text) +
        presenceCount fear_keywords (toLowerText text) := Nat.pos_of_ne_zero h
    rw [if_pos hT]
    dsimp only
    rcases (by omega : presenceCount happy_keywords (toLowerText text) +
        presenceCount angry_keywords (toLowerText text) +
        presenceCount surprise_keywords (toLowerText text) +
        presenceCount sad_keywords (toLowerText text) +
        presenceCount fear_keywords (toLowerText text) ≤
          5 * presenceCount happy_keywords (toLowerText text) ∨
        presenceCount happy_keywords (toLowerText text) +
        presenceCount angry_keywords (toLowerText text) +
        presenceCount surprise_keywords (toLowerText text) +
        presenceCount sad_keywords (toLowerText text) +
        presenceCount fear_keywords (toLowerText text) ≤
          5 * presenceCount angry_keywords (toLowerText text) ∨
        presenceCount happy_keywords (toLowerText text) +
        presenceCount angry_keywords (toLowerText text) +
        presenceCount surprise_keywords (toLowerText text) +
        presenceCount sad_keywords (toLowerText text) +
        presenceCount fear_keywords (toLowerText text) ≤
          5 * presenceCount surprise_keywords (toLowerText text) ∨
        presenceCount happy_keywords (toLowerText text) +
        presenceCount angry_keywords (toLowerText text) +
        presenceCount surprise_keywords (toLowerText text) +
        presenceCount sad_keywords (toLowerText text) +
        presenceCount fear_keywords (toLowerText text) ≤
          5 * presenceCount sad_keywords (toLowerText text) ∨
        presenceCount happy_keywords (toLowerText text) +
        presenceCount angry_keywords (toLowerText text) +
        presenceCount surprise_keywords (toLowerText text) +
        presenceCount sad_keywords (toLowerText text) +
        presenceCount fear_keywords (toLowerText text) ≤
          5 * presenceCount fear_keywords (toLowerText text)) with
      h5 | h5 | h5 | h5 | h5 <;>
    · have h20 := emotionPct_ge_twenty hT h5
      refine ⟨⟨emotionPct_nonneg _ _, emotionPct_nonneg _ _, emotionPct_nonneg _ _,
        emotionPct_nonneg _ _, emotionPct_nonneg _ _⟩, ⟨?_, ?_⟩, fun _ => by omega⟩
      · intro hall; omega
      · intro hfalse; exact absurd (hiff.mp hfalse) h

/-- Instance of C7: a matching text has a strictly positive value; a
non-matching text is all zero. -/
theorem emotion_distribution_zero_iff_witness :
    (0 < (get_custom_emotion "happy".toList).happy ∨
     0 < (get_custom_emotion "happy".toList).angry ∨
     0 < (get_custom_emotion "happy".toList).surprise ∨
     0 < (get_custom_emotion "happy".toList).sad ∨
     0 < (get_custom_emotion "happy".toList).fear) ∧
    anyKw allEmotionKeywords (toLowerText "xq".toList) = false :=
  ⟨(emotion_distribution_zero_iff "happy".toList).2.2 (by decide),
   (emotion_distribution_zero_iff "xq".toList).2.1.mp (by decide)⟩

/-! ## C4, C8, C10: the suggestion generator -/

lemma toneSentence_mem (c : ℚ) :
    toneSentence c ∈ [toneTough, tonePositive, toneBalanced] := by
  unfold toneSentence
  split_ifs <;> simp

lemma emotionSuggestion_subset (e : Emotions) :
    emotionSuggestion e ⊆ [sugHappy, sugSad, sugAnger, sugFear, sugSurprise] := by
  unfold emotionSuggestion
  split_ifs <;> simp

lemma suggestionsCore_cons (c : ℚ) (e : Emotions) (mp : List String) :
    suggestionsCore c e mp =
      toneSentence c :: (emotionSuggestion e ++
        (if mp.contains "Stress" then [sugStress] else []) ++
        (if mp.contains "Overthinking" then [sugOverthinking] else []) ++
        (if mp.contains "Motivation" then [sugMotivation] else []) ++
        (if mp.contains "Avoidance" then [sugAvoidance] else [])) := by
  unfold suggestionsCore
  simp [List.append_assoc]

lemma suggestionsCore_ne_nil (c : ℚ) (e : Emotions) (mp : List String) :
    suggestionsCore c e mp ≠ [] := by
  rw [suggestionsCore_cons]
  exact List.cons_ne_nil _ _

lemma generate_suggestions_eq_core (c : ℚ) (e : Emotions) (mp : List String) :
    generate_suggestions c e mp = suggestionsCore c e mp := by
  unfold generate_suggestions
  rw [if_neg (suggestionsCore_ne_nil c e mp)]

lemma suggestionsCore_subset (c : ℚ) (e : Emotions) (mp : List String) :
    suggestionsCore c e mp ⊆
      [toneTough, tonePositive, toneBalanced, sugHappy, sugSad, sugAnger,
       sugFear, sugSurprise, sugStress, sugOverthinking, sugMotivation,
       sugAvoidance] := by
  rw [suggestionsCore_cons]
  refine List.cons_subset.mpr ⟨?_, ?_⟩
  · have := toneSentence_mem c
    simp only [List.mem_cons, List.not_mem_nil, or_false] at this ⊢
    tauto
  · refine List.append_subset.mpr ⟨List.append_subset.mpr ⟨List.append_subset.mpr
      ⟨List.append_subset.mpr ⟨?_, ?_⟩, ?_⟩, ?_⟩, ?_⟩
    · exact (emotionSuggestion_subset e).trans (by simp)
    · exact ite_singleton_subset _ _ (by simp)
    · exact ite_singleton_subset _ _ (by simp)
    · exact ite_singleton_subset _ _ (by simp)
    · exact ite_singleton_subset _ _ (by simp)

/-- C4: when the dominant emotion is Angry with a percentage above 30, the
anger-keyed sentence is never appended: the comparison label "Anger" never
equals the distribution key "Angry", so the branch is unreachable. -/
theorem anger_suggestion_unreachable (c : ℚ) (e : Emotions) (mp : List String)
    (hdom : dominantEmotion e = "Angry") (hpct : 30 < emotionVal e "Angry") :
    sugAnger ∉ generate_suggestions c e mp := by
  have hemo : emotionSuggestion e = [] := by
    unfold emotionSuggestion
    rw [hdom]
    rw [if_pos (by simpa [emotionVal] using hpct), if_neg (by decide),
      if_neg (by decide), if_neg (by decide), if_neg (by decide),
      if_neg (by decide)]
  intro hmem
  rw [generate_suggestions_eq_core, suggestionsCore_cons, hemo] at hmem
  simp only [List.nil_append, List.mem_cons, List.mem_append] at hmem
  rcases hmem with h | h
  · have := toneSentence_mem c
    rw [← h] at this
    exact absurd this (by decide)
  · rcases h with ((h | h) | h) | h <;>
    · revert h
      split_ifs <;> simp only [List.mem_singleton, List.not_mem_nil] <;> decide

/-- Instance of C4: an Angry-dominant distribution at 100% gets no
anger-keyed sentence. -/
theorem anger_suggestion_unreachable_witness :
    dominantEmotion ⟨0, 100, 0, 0, 0⟩ = "Angry" ∧
    30 < emotionVal ⟨0, 100, 0, 0, 0⟩ "Angry" ∧
    sugAnger ∉ generate_suggestions 0 ⟨0, 100, 0, 0, 0⟩ [] :=
  ⟨by decide, by decide,
   anger_suggestion_unreachable 0 ⟨0, 100, 0, 0, 0⟩ [] (by decide) (by decide)⟩

/-- C10: the generic fallback suggestion is unreachable: the tone sentence
is always appended first, so the pre-fallback list is never empty, the
fallback branch never executes, and the fallback string never occurs in the
output. -/
theorem fallback_suggestion_unreachable (c : ℚ) (e : Emotions)
    (mp : List String) :
    suggestionsCore c e mp ≠ [] ∧
    generate_suggestions c e mp = suggestionsCore c e mp ∧
    sugFallback ∉ generate_suggestions c e mp := by
  refine ⟨suggestionsCore_ne_nil c e mp, generate_suggestions_eq_core c e mp, ?_⟩
  intro hmem
  rw [generate_suggestions_eq_core] at hmem
  exact absurd (suggestionsCore_subset c e mp hmem) (by decide)

/-- Instance of C10 at concrete inputs. -/
theorem fallback_suggestion_unreachable_witness :
    sugFallback ∉ generate_suggestions 0 ⟨0, 0, 0, 0, 0⟩ [] :=
  (fallback_suggestion_unreachable 0 ⟨0, 0, 0, 0, 0⟩ []).2.2

/-- C8: the suggestion list is never empty and its first element is exactly
the tone sentence chosen by `compound < -0.3`, `compound > 0.3`, or the
balanced message otherwise; on the empty string every keyword check finds
no match, the highlights list is empty, and the pipeline still returns a
full result whose only suggestion is the tone sentence of the compound
score. -/
theorem suggestions_tone_head_and_empty_text_total (c : ℚ) (e : Emotions)
    (mp : List String) :
    generate_suggestions c e mp ≠ [] ∧
    (generate_suggestions c e mp).head? =
      some (if c < -(3/10) then toneTough
            else if c > 3/10 then tonePositive
            else toneBalanced) ∧
    analyze c [] =
      { category := get_sentiment_category c
        intensity := get_sentiment_intensity c
        emotions := { happy := 0, angry := 0, surprise := 0, sad := 0, fear := 0 }
        highlights := []
        mental_patterns := []
        strengths := []
        suggestions := [if c < -(3/10) then toneTough
                        else if c > 3/10 then tonePositive
                        else toneBalanced]
        summary := "A generally " ++ (get_sentiment_category c).toLower ++
          " entry with mixed emotional tones." } := by
  refine ⟨?_, ?_, ?_⟩
  · rw [generate_suggestions_eq_core]
    exact suggestionsCore_ne_nil c e mp
  · rw [generate_suggestions_eq_core, suggestionsCore_cons]
    rfl
  · unfold analyze
    have hpat : identify_mental_patterns [] = [] := by decide
    have hemo : get_custom_emotion [] =
        { happy := 0, angry := 0, surprise := 0, sad := 0, fear := 0 } := by decide
    rw [hpat, hemo]
    have hsug : generate_suggestions c
        { happy := 0, angry := 0, surprise := 0, sad := 0, fear := 0 } [] =
        [toneSentence c] := by
      rw [generate_suggestions_eq_core, suggestionsCore_cons]
      have h30 : emotionSuggestion
          { happy := 0, angry := 0, surprise := 0, sad := 0, fear := 0 } = [] := by
        decide
      rw [h30]
      rfl
    rw [hsug]
    have hsum : generate_summary c
        { happy := 0, angry := 0, surprise := 0, sad := 0, fear := 0 } =
        "A generally " ++ (get_sentiment_category c).toLower ++
          " entry with mixed emotional tones." := by
      unfold generate_summary
      rw [if_neg (by decide)]
    rw [hsum]
    have hhl : extract_highlights [] = [] := by decide
    have hst : identify_strengths [] = [] := by decide
    rw [hhl, hst]
    rfl

/-- Instance of C8 at a concrete compound score. -/
theorem suggestions_tone_head_and_empty_text_total_witness :
    (generate_suggestions 0 ⟨0, 0, 0, 0, 0⟩ []).head? = some toneBalanced := by
  have h := (suggestions_tone_head_and_empty_text_total 0 ⟨0, 0, 0, 0, 0⟩ []).2.1
  norm_num at h
  exact h

end Mood
